import Mathlib

/-!
Shallow embedding of the `spoteamfy` repository (src/spoteamfy/src/cli.py and
src/spoteamfy/src/spotify_auth.py) together with proofs about the claims of
its specification.

Python dictionaries coming from `users.json` are modelled as structures of
`Option String` fields (a missing key is `none`; a present-but-empty value is
`some ""`); Python truthiness of strings and optional strings is modelled
explicitly.  Network interactions (token exchange, recently-played request,
webhook POST) are modelled as oracle parameters, so every function stays pure
and executable.
-/

namespace Spoteamfy

/-! ### Python string primitives -/

/-- Embedding of `list1` being an initial segment of `list2`, on `Char` lists.
Used to model Python `str.startswith`. -/
def startsWithL : List Char → List Char → Bool
  | [], _ => true
  | _ :: _, [] => false
  | p :: ps, c :: cs => p == c && startsWithL ps cs

/-- Embedding of Python `str.startswith`: the pattern is an initial segment of
the string. -/
def pyStartsWith (s pat : String) : Bool :=
  startsWithL pat.data s.data

/-- Substring occurrence on `Char` lists (`pat` occurs somewhere in the list). -/
def hasSubL (pat : List Char) : List Char → Bool
  | [] => startsWithL pat []
  | c :: cs => startsWithL pat (c :: cs) || hasSubL pat cs

/-- `hasSub s pat` holds when `pat` occurs as a contiguous substring of `s`.
Embedding of Python `"pat" in s`. -/
def hasSub (s pat : String) : Bool :=
  hasSubL pat.data s.data

/-- Python truthiness of an optional string: `None` and `""` are falsy. -/
def pyFalsyOptStr : Option String → Bool
  | none => true
  | some s => s == ""

/-! ### Data model (src/cli.py, src/spotify_auth.py)

The JSON shapes handled by the code, translated to structures.  All fields
mirror the keys the Python code reads. -/

/-- One entry of `track["album"]["images"]`. -/
structure Image where
  height : Nat
  url : String
deriving DecidableEq

/-- One entry of `track["artists"]`. -/
structure ArtistInfo where
  name : String
deriving DecidableEq

/-- `track["external_urls"]` (the code reads only the `spotify` key). -/
structure ExternalUrls where
  spotify : String
deriving DecidableEq

/-- `track["album"]`. -/
structure AlbumInfo where
  name : String
  images : List Image
deriving DecidableEq

/-- The `track` object inside one recently-played item. -/
structure TrackObj where
  id : String
  name : String
  artists : List ArtistInfo
  album : AlbumInfo
  popularity : Nat
  external_urls : ExternalUrls
  preview_url : Option String
deriving DecidableEq

/-- One element of `results["items"]` returned by
`current_user_recently_played`. -/
structure PlayedItem where
  track : TrackObj
  played_at : String
deriving DecidableEq

/-- The `track_info` dictionary built by `fetch_recently_played`. -/
structure TrackInfo where
  name : String
  artist : String
  album : String
  popularity : Nat
  external_urls : String
  preview_url : Option String
  played_at : String
  album_cover_url : Option String
deriving DecidableEq

/-- A user-credentials dictionary loaded from `users.json`; each field models
one key, `none` meaning the key is absent. -/
structure UserDict where
  username : Option String
  client_id : Option String
  client_secret : Option String
  redirect_uri : Option String
  refresh_token : Option String
deriving DecidableEq

/-- The authenticated `spotipy.Spotify(auth=access_token)` client handle. -/
structure SpotifyClient where
  auth : String
deriving DecidableEq

/-! ### Authenticator (src/spotify_auth.py, `authenticate_user`) -/

/-- Possible outcomes of the network call
`sp_oauth.refresh_access_token(refresh_token)`: a token dictionary, a raised
`SpotifyOauthError`, or any other raised exception. -/
inductive ExchangeResult where
  | success (access_token : String)
  | oauthError (msg : String)
  | otherError (msg : String)
deriving DecidableEq

/-- `user_credentials.get("username", "")` as used in the exception wrappers. -/
def usernameOrEmpty (u : UserDict) : String :=
  u.username.getD ""

/-- The message of the `SpotifyAuthError` raised on a placeholder token
(src/spotify_auth.py lines 50-53). -/
def placeholderMsg : String :=
  "Refresh token is a placeholder. Use get_access_token.py script to get a real refresh token."

/-- The message of the `SpotifyAuthError` raised on a missing or empty
refresh token (src/spotify_auth.py lines 61-63). -/
def missingTokenMsg : String :=
  "Missing or empty refresh_token in user credentials."

/-- Embedding of `authenticate_user` (src/spotify_auth.py lines 13-79).

The whole body runs inside `try`.  `SpotifyAuthError` raised inside the body
(placeholder token, missing token) is itself an `Exception`, so it is caught
by the final generic handler and re-wrapped with the
"Unexpected authentication error for user ..." text.  `refresh_access_token`
is the network oracle; the second component of the result records whether that
network call was made. -/
def authenticate_user (u : UserDict)
    (refresh_access_token : String → ExchangeResult) :
    Except String SpotifyClient × Bool :=
  -- the SpotifyOAuth constructor reads the three credential keys; a missing
  -- key raises KeyError, caught by the `except KeyError` handler (the Python
  -- message additionally quotes the key name)
  match u.client_id, u.client_secret, u.redirect_uri with
  | none, _, _ =>
      (.error ("Missing required credential field for user "
        ++ usernameOrEmpty u ++ ": client_id"), false)
  | some _, none, _ =>
      (.error ("Missing required credential field for user "
        ++ usernameOrEmpty u ++ ": client_secret"), false)
  | some _, some _, none =>
      (.error ("Missing required credential field for user "
        ++ usernameOrEmpty u ++ ": redirect_uri"), false)
  | some _, some _, some _ =>
    match u.refresh_token with
    | some t =>
      if t ≠ "" then
        if pyStartsWith t "SPOTIFY_REFRESH_TOKEN" then
          -- raised SpotifyAuthError, re-caught by `except Exception`
          (.error ("Unexpected authentication error for user "
            ++ usernameOrEmpty u ++ ": " ++ placeholderMsg), false)
        else
          match refresh_access_token t with
          | .success access_token => (.ok ⟨access_token⟩, true)
          | .oauthError e =>
              (.error ("Authentication failed for user "
                ++ usernameOrEmpty u ++ ": " ++ e), true)
          | .otherError e =>
              (.error ("Unexpected authentication error for user "
                ++ usernameOrEmpty u ++ ": " ++ e), true)
      else
        (.error ("Unexpected authentication error for user "
          ++ usernameOrEmpty u ++ ": " ++ missingTokenMsg), false)
    | none =>
        (.error ("Unexpected authentication error for user "
          ++ usernameOrEmpty u ++ ": " ++ missingTokenMsg), false)

/-- The failure taxonomy of the specification (section 7). -/
inductive AuthErrorKind where
  | placeholderCredential
  | missingCredential
  | missingField
  | upstreamRejected
  | unexpected
deriving DecidableEq

/-- Modelled from the spec: the error taxonomy (`PlaceholderCredential`,
`MissingCredential`, `MissingField`, `UpstreamRejected`, `Unexpected`) is not
an enumeration in the code — `spotify_auth.py` has the single exception class
`SpotifyAuthError` and distinguishes the kinds only through the message text,
which is exactly how the repository tests classify them
(tests/test_spotify_auth.py asserts these very substrings).  This classifier
maps a `SpotifyAuthError` message back to the taxonomy by those markers. -/
def classifyAuthError (msg : String) : AuthErrorKind :=
  if hasSub msg "Refresh token is a placeholder" then .placeholderCredential
  else if hasSub msg "Missing or empty refresh_token" then .missingCredential
  else if hasSub msg "Missing required credential field" then .missingField
  else if hasSub msg "Authentication failed for user" then .upstreamRejected
  else .unexpected

/-! ### Credential loading (src/cli.py, `load_users_from_json`) -/

/-- The `required_keys.issubset(user)` check of `load_users_from_json`
(src/cli.py lines 33-41): all five required keys are present.  Only presence
is checked; values are not inspected. -/
def requiredKeysPresent (u : UserDict) : Bool :=
  u.username.isSome && u.client_id.isSome && u.client_secret.isSome
    && u.redirect_uri.isSome && u.refresh_token.isSome

/-- Embedding of `load_users_from_json` after the JSON document has been
parsed into a list of records (src/cli.py lines 31-43): every record must
carry the five required keys, otherwise a `ValueError` is raised (the Python
message additionally appends the repr of the offending record). -/
def load_users_from_json (users : List UserDict) : Except String (List UserDict) :=
  if users.all requiredKeysPresent then .ok users
  else .error "User entry missing required keys"

/-! ### Track fetching (src/cli.py, `fetch_recently_played`) -/

/-- The limit handed to `current_user_recently_played`
(src/cli.py line 111): `min(num_tracks, 50)`. -/
def fetch_request_limit (num_tracks : Int) : Int :=
  min num_tracks 50

/-- The album-cover loop body of `fetch_recently_played`
(src/cli.py lines 131-135): images with height at least 300 always overwrite
the accumulator; other images only fill it when it is still falsy
(`None` or an empty string, by Python truthiness). -/
def cover_fold (acc : Option String) : List Image → Option String
  | [] => acc
  | img :: rest =>
    if 300 ≤ img.height then cover_fold (some img.url) rest
    else if pyFalsyOptStr acc then cover_fold (some img.url) rest
    else cover_fold acc rest

/-- The selected `album_cover_url` for a track (src/cli.py lines 127-135):
`None` when the image list is empty, otherwise the result of the loop
starting from `None`. -/
def album_cover_url (images : List Image) : Option String :=
  if images.isEmpty then none else cover_fold none images

/-- The `track_info` dictionary built for one recently-played item
(src/cli.py lines 137-148). -/
def track_info_of (item : PlayedItem) : TrackInfo :=
  { name := item.track.name
    artist := String.intercalate ", " (item.track.artists.map ArtistInfo.name)
    album := item.track.album.name
    popularity := item.track.popularity
    external_urls := item.track.external_urls.spotify
    preview_url := item.track.preview_url
    played_at := item.played_at
    album_cover_url := album_cover_url item.track.album.images }

/-- The item loop of `fetch_recently_played` (src/cli.py lines 118-153):
skip items whose track id was already seen; otherwise record the id, append
the track info, and break once `len(tracks) >= num_tracks`. -/
def fetch_loop (num_tracks : Int) :
    List PlayedItem → List String → List TrackInfo → List TrackInfo
  | [], _, tracks => tracks
  | item :: rest, seen_tracks, tracks =>
    if seen_tracks.contains item.track.id then
      fetch_loop num_tracks rest seen_tracks tracks
    else
      let tracks2 := tracks ++ [track_info_of item]
      if num_tracks ≤ (tracks2.length : Int) then tracks2
      else fetch_loop num_tracks rest (item.track.id :: seen_tracks) tracks2

/-- Pure part of `fetch_recently_played` (src/cli.py lines 114-155), applied
to the item list returned by the upstream request. -/
def fetch_recently_played (items : List PlayedItem) (num_tracks : Int) :
    List TrackInfo :=
  fetch_loop num_tracks items [] []

/-- Full `fetch_recently_played` including its network boundary: the upstream
oracle receives the clamped limit and either returns the item list or fails,
in which case the exception is wrapped (src/cli.py lines 108-158). -/
def fetch_recently_played_result
    (upstream : Int → Except String (List PlayedItem)) (num_tracks : Int) :
    Except String (List TrackInfo) :=
  match upstream (fetch_request_limit num_tracks) with
  | .error e => .error ("Failed to fetch recently played tracks: " ++ e)
  | .ok items => .ok (fetch_recently_played items num_tracks)

/-! ### Teams card formatting (src/cli.py, `format_tracks_for_teams`) -/

/-- One element of the `tracks_container["items"]` list: either a ranked
track row (`ColumnSet` with the rank text `"{i}."`, name, artist, album and
optional `selectAction` url) or the empty-text separator block. -/
inductive ContainerItem where
  | trackRow (rank : Nat) (name artist album : String) (selectAction : Option String)
  | separatorRow
deriving DecidableEq

/-- One element of the adaptive-card `body` list, keeping the fields that the
code sets on each dictionary. -/
inductive BodyBlock where
  | noTracksBlock (text : String)
  | headerBlock (text : String)
  | coverImageBlock (url : String) (altText : String)
  | albumCaptionBlock (text : String)
  | tracksContainer (items : List ContainerItem)
deriving DecidableEq

/-- The Teams message payload (the constant `type`/`attachments`/`contentType`
wrapping is fixed; the card body is the varying part). -/
structure TeamsMessage where
  body : List BodyBlock
deriving DecidableEq

/-- The `selectAction` added to a track row when `track.get("external_urls")`
is truthy (src/cli.py lines 283-287). -/
def select_action (t : TrackInfo) : Option String :=
  if t.external_urls == "" then none else some t.external_urls

/-- The `for i, track in enumerate(tracks, 1)` loop filling
`tracks_container["items"]` (src/cli.py lines 235-300): a ranked row per
track, followed by a separator block whenever `i < len(tracks)`. -/
def track_items_loop (n : Nat) : Nat → List TrackInfo → List ContainerItem
  | _, [] => []
  | i, t :: rest =>
    ContainerItem.trackRow i t.name t.artist t.album (select_action t) ::
      (if i < n then
        ContainerItem.separatorRow :: track_items_loop n (i + 1) rest
      else
        track_items_loop n (i + 1) rest)

/-- Embedding of `format_tracks_for_teams` (src/cli.py lines 161-318). -/
def format_tracks_for_teams (username : String) (tracks : List TrackInfo) :
    TeamsMessage :=
  match tracks with
  | [] =>
    ⟨[BodyBlock.noTracksBlock ("No recently played tracks found for " ++ username)]⟩
  | most_recent :: _ =>
    let cover := most_recent.album_cover_url
    let header := BodyBlock.headerBlock
      ("Recently Played " ++ toString tracks.length ++ " Tracks for " ++ username)
    let coverBlocks :=
      if pyFalsyOptStr cover then []
      else
        [BodyBlock.coverImageBlock (cover.getD "")
            ("Album cover for " ++ most_recent.album),
          BodyBlock.albumCaptionBlock ("Album: " ++ most_recent.album)]
    ⟨header :: coverBlocks
      ++ [BodyBlock.tracksContainer (track_items_loop tracks.length 1 tracks)]⟩

/-! ### Webhook posting (src/cli.py, `post_to_teams`) -/

/-- `response.raise_for_status()` of the requests library: raises `HTTPError`
(a `RequestException`) exactly for status codes 400-599. -/
def raise_for_status (status : Nat) : Except String Unit :=
  if 400 ≤ status ∧ status < 500 then .error "client error"
  else if 500 ≤ status ∧ status < 600 then .error "server error"
  else .ok ()

/-- Embedding of `post_to_teams` (src/cli.py lines 321-339).  The transport
argument is the outcome of the single `requests.post` call: a raised
connection-level `RequestException`, or a response with its status code.
Every `RequestException` is caught and turned into `false`. -/
def post_to_teams (transport : Except String Nat) : Bool :=
  match transport with
  | .error _ => false
  | .ok status =>
    match raise_for_status status with
    | .error _ => false
    | .ok _ => true

/-! ### Batch orchestrator (src/cli.py, `main`, lines 390-435) -/

/-- The network-facing behaviour of one user iteration: the token-exchange
oracle, the recently-played oracle (as a function of the requested limit) and
the webhook transport oracle (as a function of the posted message). -/
structure UserBehavior where
  refresh_access_token : String → ExchangeResult
  upstream : Int → Except String (List PlayedItem)
  transport : TeamsMessage → Except String Nat

/-- Terminal state of one user iteration: which of the two counters
(`successful_posts` / `failed_posts`) it increments. -/
inductive UserOutcome where
  | success
  | failed
deriving DecidableEq

/-- One iteration of the per-user loop (src/cli.py lines 400-429):
authenticate, fetch, format, post; any raised error at authenticate or fetch
is caught by the surrounding `except` handlers and counted as a failure, and
a `false` post result is likewise a failure. -/
def process_user (num_tracks : Int) (u : UserDict) (b : UserBehavior) :
    UserOutcome :=
  match (authenticate_user u b.refresh_access_token).1 with
  | .error _ => .failed
  | .ok _ =>
    match fetch_recently_played_result b.upstream num_tracks with
    | .error _ => .failed
    | .ok tracks =>
      let message := format_tracks_for_teams (u.username.getD "<unknown>") tracks
      if post_to_teams (b.transport message) then .success else .failed

/-- The batch loop over all users, returning the final
(`successful_posts`, `failed_posts`) counters together with the per-user
outcomes in processing order. -/
def main_loop (num_tracks : Int) :
    List (UserDict × UserBehavior) → Nat × Nat × List UserOutcome
  | [] => (0, 0, [])
  | (u, b) :: rest =>
    let o := process_user num_tracks u b
    let r := main_loop num_tracks rest
    match o with
    | .success => (r.1 + 1, r.2.1, UserOutcome.success :: r.2.2)
    | .failed => (r.1, r.2.1 + 1, UserOutcome.failed :: r.2.2)

/-- Result of a whole run of `main` after the webhook URL has been resolved:
either the run aborts while loading credentials (before any user is
processed), or it completes with the final counters
(`successful_posts`, `failed_posts`, `len(users)`) and the ordered list of
per-user outcomes. -/
inductive MainResult where
  | abortedLoad (msg : String)
  | completed (successful failed total : Nat) (outcomes : List UserOutcome)
deriving DecidableEq

/-- Embedding of the batch part of `main` (src/cli.py lines 390-435).
`parse` is the outcome of opening and JSON-parsing the credentials file;
`load_users_from_json` then validates the records.  Any exception there is
caught before the loop and aborts the whole run.  `behavior` assigns each
user index its network behaviour. -/
def mainRun (parse : Except String (List UserDict)) (num_tracks : Int)
    (behavior : Nat → UserBehavior) : MainResult :=
  match parse with
  | .error e => .abortedLoad e
  | .ok parsed =>
    match load_users_from_json parsed with
    | .error e => .abortedLoad e
    | .ok users =>
      let r := main_loop num_tracks
        (users.enum.map (fun p => (p.2, behavior p.1)))
      .completed r.1 r.2.1 users.length r.2.2

/-! ### Reference definitions used to state the claims

These are specification-side descriptions, to be compared with the embedded
code above. -/

/-- First-occurrence de-duplication of an item list by track id, given the
ids already seen. -/
def dedup_first (seen : List String) : List PlayedItem → List PlayedItem
  | [] => []
  | item :: rest =>
    if seen.contains item.track.id then dedup_first seen rest
    else item :: dedup_first (item.track.id :: seen) rest

/-- The track rows of the card, ranked consecutively starting at `i`. -/
def ranked_rows (i : Nat) : List TrackInfo → List ContainerItem
  | [] => []
  | t :: rest =>
    ContainerItem.trackRow i t.name t.artist t.album (select_action t)
      :: ranked_rows (i + 1) rest

/-- The last image of the list with height at least 300, if any. -/
def last_qual : List Image → Option Image
  | [] => none
  | img :: rest =>
    match last_qual rest with
    | some q => some q
    | none => if 300 ≤ img.height then some img else none

/-- Images listed in weakly descending height order (as the upstream API
provides them). -/
def descendingHeights (images : List Image) : Prop :=
  List.Pairwise (fun a b => b.height ≤ a.height) images

/-! ### Concrete fixtures for witnesses and counterexamples -/

/-- A sample recently-played item with the given track id and no album art. -/
def mkItem (id : String) : PlayedItem :=
  { track :=
      { id := id
        name := "Song " ++ id
        artists := [⟨"Artist"⟩]
        album := { name := "Album " ++ id, images := [] }
        popularity := 50
        external_urls := ⟨"https://example.com/track/" ++ id⟩
        preview_url := none }
    played_at := "2023-01-01T12:00:00Z" }

/-- A fully populated credential record. -/
def mkUser (name tok : String) : UserDict :=
  { username := some name
    client_id := some ("id-" ++ name)
    client_secret := some ("secret-" ++ name)
    redirect_uri := some ("uri-" ++ name)
    refresh_token := some tok }

/-- Behaviour of a user whose exchange, fetch and post all succeed. -/
def goodBehavior : UserBehavior :=
  { refresh_access_token := fun _ => .success "tok"
    upstream := fun _ => .ok [mkItem "A"]
    transport := fun _ => .ok 200 }

/-- Behaviour of a user whose token exchange is refused upstream. -/
def badAuthBehavior : UserBehavior :=
  { refresh_access_token := fun _ => .oauthError "invalid refresh token"
    upstream := fun _ => .ok [mkItem "A"]
    transport := fun _ => .ok 200 }

/-- A record with every key present but an empty refresh token. -/
def emptyTokenUser : UserDict :=
  { username := some "eve"
    client_id := some "id-eve"
    client_secret := some "secret-eve"
    redirect_uri := some "uri-eve"
    refresh_token := some "" }

/-- A record lacking the `client_id` key. -/
def missingFieldUser : UserDict :=
  { username := some "bob"
    client_id := none
    client_secret := some "secret-bob"
    redirect_uri := some "uri-bob"
    refresh_token := some "tok-bob" }

/-! ### Lemmas about the fetch loop -/

theorem fetch_loop_eq (num : Int) :
    ∀ (items : List PlayedItem) (seen : List String) (tracks : List TrackInfo),
      fetch_loop num items seen tracks
        = tracks ++ ((dedup_first seen items).take
            (max (num - tracks.length) 1).toNat).map track_info_of := by
  intro items
  induction items with
  | nil => intro seen tracks; simp [fetch_loop, dedup_first]
  | cons item rest ih =>
    intro seen tracks
    by_cases hc : seen.contains item.track.id
    · simp only [fetch_loop, dedup_first, hc, if_true]
      exact ih seen tracks
    · simp only [fetch_loop, dedup_first, hc, if_false, Bool.false_eq_true]
      by_cases hstop : num ≤ (((tracks ++ [track_info_of item]).length : Nat) : Int)
      · rw [if_pos hstop]
        have hK : (max (num - tracks.length) 1).toNat = 1 := by
          simp only [List.length_append, List.length_cons, List.length_nil,
            Nat.cast_add, Nat.cast_one] at hstop
          omega
        rw [hK]
        simp
      · rw [if_neg hstop]
        rw [ih (item.track.id :: seen) (tracks ++ [track_info_of item])]
        have hK : (max (num - tracks.length) 1).toNat
            = ((max (num - ((tracks ++ [track_info_of item]).length : Nat)) 1).toNat)
              + 1 := by
          simp only [List.length_append, List.length_cons, List.length_nil,
            Nat.cast_add, Nat.cast_one] at hstop ⊢
          omega
        rw [hK]
        simp [List.append_assoc]

theorem fetch_recently_played_eq (items : List PlayedItem) (num : Int) :
    fetch_recently_played items num
      = ((dedup_first [] items).take (max num 1).toNat).map track_info_of := by
  have h := fetch_loop_eq num items [] []
  simpa using h

theorem dedup_first_sublist :
    ∀ (items : List PlayedItem) (seen : List String),
      (dedup_first seen items).Sublist items := by
  intro items
  induction items with
  | nil => intro seen; simp [dedup_first]
  | cons item rest ih =>
    intro seen
    by_cases hc : seen.contains item.track.id
    · simp only [dedup_first, hc, if_true]
      exact (ih seen).cons item
    · simp only [dedup_first, hc, if_false, Bool.false_eq_true]
      exact (ih (item.track.id :: seen)).cons₂ item

theorem dedup_first_nodup_and_fresh :
    ∀ (items : List PlayedItem) (seen : List String),
      ((dedup_first seen items).map (fun i => i.track.id)).Nodup ∧
        ∀ i ∈ dedup_first seen items, seen.contains i.track.id = false := by
  intro items
  induction items with
  | nil => intro seen; simp [dedup_first]
  | cons item rest ih =>
    intro seen
    by_cases hc : seen.contains item.track.id
    · simpa only [dedup_first, hc, if_true] using ih seen
    · simp only [dedup_first, hc, if_false, Bool.false_eq_true]
      obtain ⟨hnd, hfresh⟩ := ih (item.track.id :: seen)
      constructor
      · simp only [List.map_cons, List.nodup_cons]
        refine ⟨?_, hnd⟩
        intro hmem
        obtain ⟨j, hj, hid⟩ := List.mem_map.mp hmem
        have := hfresh j hj
        simp [List.contains_cons, hid] at this
      · intro i hi
        rcases List.mem_cons.mp hi with h | h
        · subst h
          simpa using hc
        · have := hfresh i h
          simp only [List.contains_cons, Bool.or_eq_false_iff] at this
          exact this.2

theorem fetch_length_le_max (items : List PlayedItem) (num : Int) :
    (fetch_recently_played items num).length ≤ (max num 1).toNat := by
  rw [fetch_recently_played_eq]
  simp only [List.length_map]
  exact (List.length_take _ _).le.trans (min_le_left _ _)

theorem fetch_length_le_items (items : List PlayedItem) (num : Int) :
    (fetch_recently_played items num).length ≤ items.length := by
  rw [fetch_recently_played_eq]
  simp only [List.length_map]
  calc (List.take (max num 1).toNat (dedup_first [] items)).length
      ≤ (dedup_first [] items).length := (List.length_take _ _).le.trans
        (min_le_right _ _)
    _ ≤ items.length := (dedup_first_sublist items []).length_le

/-! ### Lemmas about substring search and classification -/

theorem startsWithL_append (pat rest : List Char) :
    startsWithL pat (pat ++ rest) = true := by
  induction pat with
  | nil => simp [startsWithL]
  | cons c cs ih => simp [startsWithL, ih]

theorem hasSubL_of_startsWithL (pat l : List Char)
    (h : startsWithL pat l = true) : hasSubL pat l = true := by
  cases l with
  | nil => simpa [hasSubL] using h
  | cons c cs => simp [hasSubL, h]

theorem hasSubL_append_left (pat l : List Char) (h : hasSubL pat l = true) :
    ∀ xs : List Char, hasSubL pat (xs ++ l) = true := by
  intro xs
  induction xs with
  | nil => simpa using h
  | cons x xs ih => simp [hasSubL, ih]

theorem hasSub_append_right (a b pat : String) (h : hasSub b pat = true) :
    hasSub (a ++ b) pat = true := by
  unfold hasSub at h ⊢
  rw [String.data_append]
  exact hasSubL_append_left _ _ h _

theorem hasSub_placeholderMsg :
    hasSub placeholderMsg "Refresh token is a placeholder" = true := by decide

theorem classify_placeholder_wrapped (userText : String) :
    classifyAuthError ("Unexpected authentication error for user "
      ++ userText ++ ": " ++ placeholderMsg) = .placeholderCredential := by
  unfold classifyAuthError
  rw [if_pos]
  have h1 : hasSub (": " ++ placeholderMsg) "Refresh token is a placeholder"
      = true := hasSub_append_right _ _ _ hasSub_placeholderMsg
  have h2 := hasSub_append_right userText (": " ++ placeholderMsg) _ h1
  have h3 := hasSub_append_right "Unexpected authentication error for user "
    (userText ++ (": " ++ placeholderMsg)) _ h2
  calc hasSub ("Unexpected authentication error for user "
        ++ userText ++ ": " ++ placeholderMsg) "Refresh token is a placeholder"
      = hasSub ("Unexpected authentication error for user "
        ++ (userText ++ (": " ++ placeholderMsg)))
          "Refresh token is a placeholder" := by
        simp [hasSub, String.data_append, List.append_assoc]
    _ = true := h3

/-! ### Lemmas about cover selection -/

theorem cover_fold_no_qual :
    ∀ (l : List Image) (acc : Option String),
      (∀ img ∈ l, img.height < 300) →
      cover_fold acc l = acc ∨ ∃ img ∈ l, cover_fold acc l = some img.url := by
  intro l
  induction l with
  | nil => intro acc _; left; rfl
  | cons img rest ih =>
    intro acc hs
    have himg : img.height < 300 := hs img (List.mem_cons_self _ _)
    have hrest : ∀ i ∈ rest, i.height < 300 :=
      fun i hi => hs i (List.mem_cons_of_mem _ hi)
    simp only [cover_fold, if_neg (by omega : ¬ 300 ≤ img.height)]
    by_cases hacc : pyFalsyOptStr acc
    · rw [if_pos hacc]
      rcases ih (some img.url) hrest with h | ⟨j, hj, hcf⟩
      · right; exact ⟨img, List.mem_cons_self _ _, h⟩
      · right; exact ⟨j, List.mem_cons_of_mem _ hj, hcf⟩
    · rw [if_neg hacc]
      rcases ih acc hrest with h | ⟨j, hj, hcf⟩
      · left; exact h
      · right; exact ⟨j, List.mem_cons_of_mem _ hj, hcf⟩

theorem cover_fold_keeps_nonempty :
    ∀ (l : List Image) (u : String),
      (∀ img ∈ l, img.height < 300) → u ≠ "" →
      cover_fold (some u) l = some u := by
  intro l
  induction l with
  | nil => intro u _ _; rfl
  | cons img rest ih =>
    intro u hs hu
    have himg : img.height < 300 := hs img (List.mem_cons_self _ _)
    have hfalsy : pyFalsyOptStr (some u) = false := by
      simp [pyFalsyOptStr, hu]
    simp only [cover_fold, if_neg (by omega : ¬ 300 ≤ img.height), hfalsy,
      Bool.false_eq_true, if_false]
    exact ih u (fun i hi => hs i (List.mem_cons_of_mem _ hi)) hu

theorem last_qual_none :
    ∀ l : List Image, last_qual l = none → ∀ img ∈ l, img.height < 300 := by
  intro l
  induction l with
  | nil => intro _ img h; simp at h
  | cons i rest ih =>
    intro h img hmem
    rcases hq : last_qual rest with _ | q
    · simp only [last_qual, hq] at h
      rcases List.mem_cons.mp hmem with rfl | hm
      · by_contra hge
        rw [if_pos (by omega : 300 ≤ img.height)] at h
        exact Option.some_ne_none _ h
      · exact ih hq img hm
    · simp [last_qual, hq] at h

theorem cover_fold_last_qual :
    ∀ (l : List Image) (q : Image), last_qual l = some q →
      (∀ img ∈ l, img.url ≠ "") →
      ∀ acc : Option String, cover_fold acc l = some q.url := by
  intro l
  induction l with
  | nil => intro q h; simp [last_qual] at h
  | cons img rest ih =>
    intro q hq hurl acc
    have hurl' : ∀ i ∈ rest, i.url ≠ "" :=
      fun i hi => hurl i (List.mem_cons_of_mem _ hi)
    rcases hqr : last_qual rest with _ | q'
    · -- no qualifying image in the tail, so the head must qualify
      simp only [last_qual, hqr] at hq
      by_cases hh : 300 ≤ img.height
      · rw [if_pos hh] at hq
        obtain rfl : img = q := by injection hq
        simp only [cover_fold, if_pos hh]
        exact cover_fold_keeps_nonempty rest img.url (last_qual_none rest hqr)
          (hurl img (List.mem_cons_self _ _))
      · rw [if_neg hh] at hq
        exact absurd hq (Option.noConfusion)
    · have hq' : q' = q := by
        simp only [last_qual, hqr] at hq
        injection hq
      rw [hq'] at hqr
      simp only [cover_fold]
      by_cases hh : 300 ≤ img.height
      · rw [if_pos hh]
        exact ih q hqr hurl' _
      · rw [if_neg hh]
        by_cases hacc : pyFalsyOptStr acc
        · rw [if_pos hacc]; exact ih q hqr hurl' _
        · rw [if_neg hacc]; exact ih q hqr hurl' _

theorem last_qual_minimal :
    ∀ (l : List Image) (q : Image), descendingHeights l → last_qual l = some q →
      q ∈ l ∧ 300 ≤ q.height ∧
        ∀ img ∈ l, 300 ≤ img.height → q.height ≤ img.height := by
  intro l
  induction l with
  | nil => intro q _ h; simp [last_qual] at h
  | cons img rest ih =>
    intro q hsort hq
    have hpair := (List.pairwise_cons.mp hsort)
    rcases hqr : last_qual rest with _ | q'
    · simp only [last_qual, hqr] at hq
      by_cases hh : 300 ≤ img.height
      · rw [if_pos hh] at hq
        obtain rfl : img = q := by injection hq
        refine ⟨List.mem_cons_self _ _, hh, ?_⟩
        intro j hj hjq
        rcases List.mem_cons.mp hj with rfl | hm
        · exact le_refl _
        · exact absurd hjq (by have := last_qual_none rest hqr j hm; omega)
      · rw [if_neg hh] at hq
        exact absurd hq (Option.noConfusion)
    · have hq' : q' = q := by
        simp only [last_qual, hqr] at hq
        injection hq
      rw [hq'] at hqr
      obtain ⟨hmem, hqual, hmin⟩ := ih q hpair.2 hqr
      refine ⟨List.mem_cons_of_mem _ hmem, hqual, ?_⟩
      intro j hj hjq
      rcases List.mem_cons.mp hj with rfl | hm
      · exact hpair.1 q hmem
      · exact hmin j hm hjq

theorem last_qual_isSome_of_qual (l : List Image) (img : Image)
    (hmem : img ∈ l) (hq : 300 ≤ img.height) : ∃ q, last_qual l = some q := by
  rcases h : last_qual l with _ | q
  · exact absurd hq (by have := last_qual_none l h img hmem; omega)
  · exact ⟨q, rfl⟩

/-! ### Lemmas about the card formatter -/

theorem track_items_loop_eq_intersperse :
    ∀ (ts : List TrackInfo) (i n : Nat), i + ts.length = n + 1 →
      track_items_loop n i ts
        = List.intersperse ContainerItem.separatorRow (ranked_rows i ts) := by
  intro ts
  induction ts with
  | nil => intro i n _; rfl
  | cons t rest ih =>
    intro i n h
    cases rest with
    | nil =>
      have hi : ¬ i < n := by simp at h; omega
      simp [track_items_loop, ranked_rows, hi]
    | cons r rs =>
      have hi : i < n := by simp at h; omega
      have hrec := ih (i + 1) n (by simp at h ⊢; omega)
      have e1 : ranked_rows i (t :: r :: rs)
          = ContainerItem.trackRow i t.name t.artist t.album (select_action t)
            :: ranked_rows (i + 1) (r :: rs) := rfl
      have e2 : ranked_rows (i + 1) (r :: rs)
          = ContainerItem.trackRow (i + 1) r.name r.artist r.album
              (select_action r) :: ranked_rows (i + 1 + 1) rs := rfl
      rw [e1, e2, List.intersperse_cons_cons, ← e2, track_items_loop,
        if_pos hi, hrec]

theorem ranked_rows_eq_zip :
    ∀ (ts : List TrackInfo) (i : Nat),
      ranked_rows i ts
        = ((List.range ts.length).zip ts).map
            (fun p => ContainerItem.trackRow (i + p.1) p.2.name p.2.artist
              p.2.album (select_action p.2)) := by
  intro ts
  induction ts with
  | nil => intro i; rfl
  | cons t rest ih =>
    intro i
    rw [ranked_rows, ih (i + 1)]
    simp only [List.length_cons, List.range_succ_eq_map, List.zip_cons_cons,
      List.map_cons, Nat.add_zero, List.zip_map_left, List.map_map]
    refine congrArg₂ _ rfl ?_
    refine List.map_congr_left ?_
    intro p _
    simp [Function.comp, Prod.map, Nat.add_comm, Nat.add_assoc, Nat.add_left_comm]

/-! ### Lemmas about the batch loop -/

theorem main_loop_outcomes (num : Int) :
    ∀ runs : List (UserDict × UserBehavior),
      (main_loop num runs).2.2 = runs.map (fun p => process_user num p.1 p.2) := by
  intro runs
  induction runs with
  | nil => rfl
  | cons r rest ih =>
    obtain ⟨u, b⟩ := r
    simp only [main_loop, List.map_cons]
    rcases h : process_user num u b with _ | _ <;> simp [h, ih]

theorem main_loop_counts (num : Int) :
    ∀ runs : List (UserDict × UserBehavior),
      (main_loop num runs).1 + (main_loop num runs).2.1 = runs.length := by
  intro runs
  induction runs with
  | nil => rfl
  | cons r rest ih =>
    obtain ⟨u, b⟩ := r
    simp only [main_loop, List.length_cons]
    rcases h : process_user num u b with _ | _ <;> simp [h] <;> omega

theorem main_loop_trace_length (num : Int) (runs : List (UserDict × UserBehavior)) :
    (main_loop num runs).2.2.length = runs.length := by
  rw [main_loop_outcomes]
  simp

theorem process_user_failed_of_auth_error (num : Int) (u : UserDict)
    (b : UserBehavior) (msg : String)
    (h : (authenticate_user u b.refresh_access_token).1 = .error msg) :
    process_user num u b = .failed := by
  simp [process_user, h]

theorem process_user_failed_of_fetch_error (num : Int) (u : UserDict)
    (b : UserBehavior) (msg : String)
    (h : fetch_recently_played_result b.upstream num = .error msg) :
    process_user num u b = .failed := by
  unfold process_user
  rcases ha : (authenticate_user u b.refresh_access_token).1 with _ | c
  · rfl
  · simp [h]

theorem mainRun_ok (users : List UserDict) (num : Int)
    (behavior : Nat → UserBehavior)
    (h : users.all requiredKeysPresent = true) :
    mainRun (.ok users) num behavior
      = .completed
          (main_loop num (users.enum.map (fun p => (p.2, behavior p.1)))).1
          (main_loop num (users.enum.map (fun p => (p.2, behavior p.1)))).2.1
          users.length
          (main_loop num (users.enum.map (fun p => (p.2, behavior p.1)))).2.2 := by
  simp [mainRun, load_users_from_json, h]

theorem cover_fold_some_ne_none :
    ∀ (l : List Image) (u : String), cover_fold (some u) l ≠ none := by
  intro l
  induction l with
  | nil => intro u h; exact Option.some_ne_none _ h
  | cons img rest ih =>
    intro u
    simp only [cover_fold]
    by_cases hh : 300 ≤ img.height
    · rw [if_pos hh]; exact ih _
    · rw [if_neg hh]
      by_cases hacc : pyFalsyOptStr (some u)
      · rw [if_pos hacc]; exact ih _
      · rw [if_neg hacc]; exact ih _

theorem cover_fold_cons_ne_none (img : Image) (rest : List Image) :
    cover_fold none (img :: rest) ≠ none := by
  simp only [cover_fold]
  by_cases hh : 300 ≤ img.height
  · rw [if_pos hh]; exact cover_fold_some_ne_none _ _
  · rw [if_neg hh, if_pos (by rfl : pyFalsyOptStr none = true)]
    exact cover_fold_some_ne_none _ _

theorem load_error_of_bad_user (users : List UserDict) (u : UserDict)
    (hmem : u ∈ users) (hbad : requiredKeysPresent u = false) :
    load_users_from_json users = .error "User entry missing required keys" := by
  have hall : users.all requiredKeysPresent = false := by
    by_contra h
    have h' : users.all requiredKeysPresent = true := by
      revert h
      cases users.all requiredKeysPresent <;> simp
    have := List.all_eq_true.mp h' u hmem
    rw [hbad] at this
    exact Bool.false_ne_true this
  simp [load_users_from_json, hall]

/-! ### Claim theorems -/

/-- C1: for every credential record (credential fields present, as the data
model requires) whose refresh token starts with the reserved placeholder
marker "SPOTIFY_REFRESH_TOKEN", `authenticate_user` fails with a
`SpotifyAuthError` classified as `PlaceholderCredential`, and the network
token exchange `refresh_access_token` is never invoked, whatever exchange
results the network would have produced. -/
theorem c1_placeholder_never_exchanged (u : UserDict)
    (exchange : String → ExchangeResult) (t : String)
    (hcid : u.client_id.isSome = true) (hcs : u.client_secret.isSome = true)
    (hru : u.redirect_uri.isSome = true)
    (ht : u.refresh_token = some t)
    (hpl : pyStartsWith t "SPOTIFY_REFRESH_TOKEN" = true) :
    (∃ msg, (authenticate_user u exchange).1 = .error msg ∧
        classifyAuthError msg = .placeholderCredential) ∧
      (authenticate_user u exchange).2 = false := by
  obtain ⟨un, ocid, ocs, oru, ort⟩ := u
  obtain ⟨cid, rfl⟩ := Option.isSome_iff_exists.mp hcid
  obtain ⟨cs, rfl⟩ := Option.isSome_iff_exists.mp hcs
  obtain ⟨ru, rfl⟩ := Option.isSome_iff_exists.mp hru
  simp only at ht
  subst ht
  have htne : t ≠ "" := by
    intro h0
    subst h0
    exact absurd hpl (by decide)
  simp only [authenticate_user, if_pos htne, hpl, if_true]
  exact ⟨⟨_, rfl, classify_placeholder_wrapped _⟩, trivial⟩

/-- C1 witness: a concrete record with placeholder token
"SPOTIFY_REFRESH_TOKEN_1" fails classified as `PlaceholderCredential` with
no exchange call, even though the exchange oracle would have succeeded. -/
theorem c1_witness :
    (∃ msg, (authenticate_user (mkUser "alice" "SPOTIFY_REFRESH_TOKEN_1")
        (fun _ => .success "tok")).1 = .error msg ∧
        classifyAuthError msg = .placeholderCredential) ∧
      (authenticate_user (mkUser "alice" "SPOTIFY_REFRESH_TOKEN_1")
        (fun _ => .success "tok")).2 = false :=
  c1_placeholder_never_exchanged (mkUser "alice" "SPOTIFY_REFRESH_TOKEN_1")
    (fun _ => .success "tok") "SPOTIFY_REFRESH_TOKEN_1"
    (by decide) (by decide) (by decide) rfl (by decide)

/-- C2: per-user failure isolation in the batch loop.  Every record produces
exactly its own outcome, in order; an error raised by `authenticate_user` or
by `fetch_recently_played` makes that user a failure without affecting the
others; and in the concrete three-record run where only user 2 fails
authentication the final counters are successful 2, failed 1, total 3, with
users 1 and 3 fully processed to success. -/
theorem c2_per_user_isolation :
    (∀ (num : Int) (runs : List (UserDict × UserBehavior)),
        (main_loop num runs).2.2
          = runs.map (fun p => process_user num p.1 p.2)) ∧
    (∀ (num : Int) (u : UserDict) (b : UserBehavior) (msg : String),
        (authenticate_user u b.refresh_access_token).1 = .error msg →
          process_user num u b = .failed) ∧
    (∀ (num : Int) (u : UserDict) (b : UserBehavior) (msg : String),
        fetch_recently_played_result b.upstream num = .error msg →
          process_user num u b = .failed) ∧
    mainRun (.ok [mkUser "u1" "t1", mkUser "u2" "t2", mkUser "u3" "t3"]) 5
        (fun i => if i = 1 then badAuthBehavior else goodBehavior)
      = .completed 2 1 3 [.success, .failed, .success] := by
  refine ⟨main_loop_outcomes, process_user_failed_of_auth_error,
    process_user_failed_of_fetch_error, by decide⟩

/-- C2 witness: the middle user of the concrete run fails as soon as its
token exchange is refused. -/
theorem c2_witness :
    process_user 5 (mkUser "u2" "t2") badAuthBehavior = .failed :=
  c2_per_user_isolation.2.1 5 (mkUser "u2" "t2") badAuthBehavior
    "Authentication failed for user u2: invalid refresh token" rfl

/-- C3 counterexample: with requestedCount 0 and the non-empty upstream
sequence [A, B], the loop does not stop "once 0 unique entries are
collected": the stop test runs only after an entry has been appended, so one
entry is returned. -/
theorem c3_counterexample :
    fetch_recently_played [mkItem "A", mkItem "B"] 0
      = [track_info_of (mkItem "A")] := by decide

/-- C3 (amended): the fetched list is exactly the first-occurrence
de-duplication of the upstream items (order preserved: the de-duplicated
items form a sublist of the upstream sequence with pairwise-distinct ids),
truncated after max(requestedCount, 1) entries — so the loop stops at
requestedCount unique entries for every requestedCount at least 1, while
requestedCount at most 0 still yields one entry when the upstream sequence
has any; for items [A, B, A, C] and requestedCount 3 the result is
[A, B, C] in that order. -/
theorem c3_dedup_preserves_first_order :
    (∀ (items : List PlayedItem) (num : Int),
        fetch_recently_played items num
          = ((dedup_first [] items).take (max num 1).toNat).map track_info_of) ∧
    (∀ items : List PlayedItem, (dedup_first [] items).Sublist items) ∧
    (∀ items : List PlayedItem,
        ((dedup_first [] items).map (fun i => i.track.id)).Nodup) ∧
    fetch_recently_played [mkItem "A", mkItem "B", mkItem "A", mkItem "C"] 3
      = [track_info_of (mkItem "A"), track_info_of (mkItem "B"),
          track_info_of (mkItem "C")] := by
  refine ⟨fetch_recently_played_eq, fun items => dedup_first_sublist items [],
    fun items => (dedup_first_nodup_and_fresh items []).1, by decide⟩

/-- C4 counterexample: the code computes `min(num_tracks, 50)` with no lower
clamp, so a negative requested count reaches the upstream request: the limit
for requestedCount -1 is -1, which is less than 0. -/
theorem c4_counterexample :
    fetch_request_limit (-1) = -1 ∧ fetch_request_limit (-1) < 0 := by decide

/-- C4 (amended): the upstream limit is `min(requestedCount, 50)`: it never
exceeds 50, and for every non-negative requestedCount it lies within
[0, 50]; requestedCount 100 yields limit 50.  There is no lower clamp, so a
negative requestedCount is passed through. -/
theorem c4_upper_clamp :
    (∀ num : Int, fetch_request_limit num ≤ 50) ∧
    (∀ num : Int, 0 ≤ num →
        0 ≤ fetch_request_limit num ∧ fetch_request_limit num ≤ 50) ∧
    fetch_request_limit 100 = 50 := by
  refine ⟨fun num => min_le_right _ _,
    fun num h => ⟨le_min h (by norm_num), min_le_right _ _⟩, by decide⟩

/-- C4 witness: requestedCount 7 stays within [0, 50]. -/
theorem c4_witness :
    (0 : Int) ≤ 7 ∧ (0 ≤ fetch_request_limit 7 ∧ fetch_request_limit 7 ≤ 50) :=
  ⟨by decide, c4_upper_clamp.2.1 7 (by decide)⟩

/-- C5 counterexample: for images listed as [height 300, height 640] the
code returns the height-640 url, not the smallest qualifying height (300):
each image with height at least 300 overwrites the previous choice, so in
general the last qualifying image wins, not the smallest. -/
theorem c5_counterexample :
    album_cover_url [⟨300, "m"⟩, ⟨640, "l"⟩] = some "l" ∧
      album_cover_url [⟨300, "m"⟩, ⟨640, "l"⟩] ≠ some "m" ∧ (300 : Nat) < 640 := by
  decide

/-- C5 (amended): with no images the cover is absent; if no image reaches
height 300 the code falls back to one of the listed images; and whenever the
images are listed in weakly descending height order (as the upstream
provides them) with non-empty urls, the chosen cover is a qualifying image
of minimal height among those with height at least 300 — for arbitrary
image orders the code instead keeps the last qualifying image.  The two
cited examples hold: [640, 300, 64] picks the height-300 url and a lone
height-64 image is used as fallback. -/
theorem c5_cover_selection :
    album_cover_url [] = none ∧
    (∀ images : List Image, images ≠ [] →
        (∀ img ∈ images, img.height < 300) →
        ∃ img ∈ images, album_cover_url images = some img.url) ∧
    (∀ images : List Image, descendingHeights images →
        (∀ img ∈ images, img.url ≠ "") →
        ∀ i ∈ images, 300 ≤ i.height →
        ∃ img ∈ images, album_cover_url images = some img.url ∧
          300 ≤ img.height ∧
          ∀ j ∈ images, 300 ≤ j.height → img.height ≤ j.height) ∧
    album_cover_url [⟨640, "l"⟩, ⟨300, "m"⟩, ⟨64, "s"⟩] = some "m" ∧
    album_cover_url [⟨64, "s"⟩] = some "s" := by
  refine ⟨rfl, ?_, ?_, by decide, by decide⟩
  · intro images hne hsmall
    match images, hne with
    | img :: rest, _ =>
      have hres := cover_fold_no_qual (img :: rest) none hsmall
      have hnn := cover_fold_cons_ne_none img rest
      have hempty : (img :: rest).isEmpty = false := rfl
      rcases hres with h | ⟨j, hj, hcf⟩
      · exact absurd h hnn
      · exact ⟨j, hj, by simpa [album_cover_url, hempty] using hcf⟩
  · intro images hsort hurl i hi hq
    obtain ⟨q, hlast⟩ := last_qual_isSome_of_qual images i hi hq
    obtain ⟨hqmem, hqual, hmin⟩ := last_qual_minimal images q hsort hlast
    have hcf := cover_fold_last_qual images q hlast hurl none
    have hempty : images.isEmpty = false := by
      cases images with
      | nil => simp at hi
      | cons a l => rfl
    exact ⟨q, hqmem, by simpa [album_cover_url, hempty] using hcf, hqual, hmin⟩

/-- C5 witness: the amended statement instantiated on the descending list
[640, 300, 64]: the chosen cover is the height-300 image, minimal among the
qualifying images. -/
theorem c5_witness :
    ∃ img ∈ [(⟨640, "l"⟩ : Image), ⟨300, "m"⟩, ⟨64, "s"⟩],
      album_cover_url [⟨640, "l"⟩, ⟨300, "m"⟩, ⟨64, "s"⟩] = some img.url ∧
        300 ≤ img.height ∧
        ∀ j ∈ [(⟨640, "l"⟩ : Image), ⟨300, "m"⟩, ⟨64, "s"⟩],
          300 ≤ j.height → img.height ≤ j.height :=
  c5_cover_selection.2.2.1 [⟨640, "l"⟩, ⟨300, "m"⟩, ⟨64, "s"⟩]
    (by simp [descendingHeights])
    (by decide) ⟨640, "l"⟩ (by decide) (by decide)

/-- C6 counterexample: requestedCount 0 together with the one-item upstream
sequence [A] yields a list of length 1, not the empty list the claim
demands. -/
theorem c6_counterexample :
    (fetch_recently_played [mkItem "A"] 0).length = 1 := by decide

/-- C6 (amended): the track list length never exceeds requestedCount for
every requestedCount at least 1, never exceeds the number of upstream items
(hence stays at most 50 whenever the upstream honours the at-most-50
requested limit), and in general is bounded by max(requestedCount, 1) — so
requestedCount 0 can still produce one entry, and yields the empty list
exactly when the upstream sequence is empty. -/
theorem c6_track_list_bounds :
    (∀ (items : List PlayedItem) (num : Int), 1 ≤ num →
        ((fetch_recently_played items num).length : Int) ≤ num) ∧
    (∀ (items : List PlayedItem) (num : Int),
        (fetch_recently_played items num).length ≤ items.length) ∧
    (∀ (items : List PlayedItem) (num : Int), items.length ≤ 50 →
        (fetch_recently_played items num).length ≤ 50) ∧
    (∀ (items : List PlayedItem) (num : Int),
        (fetch_recently_played items num).length ≤ (max num 1).toNat) ∧
    fetch_recently_played [] 0 = [] := by
  refine ⟨?_, fetch_length_le_items, ?_, fetch_length_le_max, rfl⟩
  · intro items num h
    have hle := fetch_length_le_max items num
    have hmax : (max num 1).toNat = num.toNat := by omega
    rw [hmax] at hle
    omega
  · intro items num h
    exact (fetch_length_le_items items num).trans h

/-- C6 witness: requesting one track from the two-item upstream sequence
[A, B] returns at most one entry. -/
theorem c6_witness :
    (1 : Int) ≤ 1 ∧
      ((fetch_recently_played [mkItem "A", mkItem "B"] 1).length : Int) ≤ 1 :=
  ⟨by decide, c6_track_list_bounds.1 [mkItem "A", mkItem "B"] 1 (by decide)⟩

/-- C7 counterexample: a record whose five keys are all present but whose
refresh_token is the empty string is accepted by `load_users_from_json`:
only key presence is checked at load time, emptiness is not. -/
theorem c7_counterexample :
    emptyTokenUser.refresh_token = some "" ∧
      requiredKeysPresent emptyTokenUser = true ∧
      load_users_from_json [emptyTokenUser] = .ok [emptyTokenUser] :=
  ⟨rfl, rfl, rfl⟩

/-- C7 (amended): a record missing any of the five required keys is rejected
at load time and the rejection aborts the whole run before any user is
processed (a parse failure aborts likewise); a present-but-empty field,
however, passes loading — an empty refresh token only fails later,
per-user, inside `authenticate_user`, and even then without any network
call. -/
theorem c7_load_checks_presence_only :
    (∀ (users : List UserDict) (u : UserDict), u ∈ users →
        requiredKeysPresent u = false →
        load_users_from_json users
          = .error "User entry missing required keys") ∧
    (∀ (e : String) (num : Int) (behavior : Nat → UserBehavior),
        mainRun (.error e) num behavior = .abortedLoad e) ∧
    (∀ (users : List UserDict) (num : Int) (behavior : Nat → UserBehavior)
        (u : UserDict), u ∈ users → requiredKeysPresent u = false →
        mainRun (.ok users) num behavior
          = .abortedLoad "User entry missing required keys") ∧
    (∀ (u : UserDict) (exchange : String → ExchangeResult),
        u.refresh_token = some "" →
        ∃ msg, (authenticate_user u exchange).1 = .error msg ∧
          (authenticate_user u exchange).2 = false) := by
  refine ⟨load_error_of_bad_user, fun e num behavior => rfl, ?_, ?_⟩
  · intro users num behavior u hmem hbad
    simp [mainRun, load_error_of_bad_user users u hmem hbad]
  · intro u exchange ht
    obtain ⟨un, ocid, ocs, oru, ort⟩ := u
    simp only at ht
    subst ht
    cases ocid with
    | none => exact ⟨_, rfl, rfl⟩
    | some cid =>
      cases ocs with
      | none => exact ⟨_, rfl, rfl⟩
      | some cs =>
        cases oru with
        | none => exact ⟨_, rfl, rfl⟩
        | some ru => exact ⟨_, rfl, rfl⟩

/-- C7 witness: a record lacking client_id aborts the whole run while
loading, before any user is processed. -/
theorem c7_witness :
    mainRun (.ok [missingFieldUser]) 5 (fun _ => goodBehavior)
      = .abortedLoad "User entry missing required keys" :=
  c7_load_checks_presence_only.2.2.1 [missingFieldUser] 5
    (fun _ => goodBehavior) missingFieldUser (by decide) (by decide)

/-- C8 counterexample: a delivery answered with status 304 — not a 2xx
status — still returns true, because `raise_for_status` only raises for
status codes 400-599. -/
theorem c8_counterexample :
    post_to_teams (.ok 304) = true ∧ ¬ ((200 : Nat) ≤ 304 ∧ 304 < 300) := by
  decide

/-- C8 (amended): `post_to_teams` performs its single delivery attempt and
returns a boolean; a connection error is converted to false and never
re-raised, true is returned exactly when the response status lies outside
400-599 (all 2xx statuses therefore yield true, but so do non-error
statuses such as 304), and every 4xx/5xx status yields false. -/
theorem c8_post_single_attempt_boolean :
    (∀ e : String, post_to_teams (.error e) = false) ∧
    (∀ status : Nat,
        post_to_teams (.ok status) = true ↔ ¬ (400 ≤ status ∧ status < 600)) ∧
    (∀ status : Nat, 200 ≤ status → status < 300 →
        post_to_teams (.ok status) = true) := by
  have hiff : ∀ status : Nat,
      post_to_teams (.ok status) = true ↔ ¬ (400 ≤ status ∧ status < 600) := by
    intro s
    by_cases h : 400 ≤ s ∧ s < 600
    · have hfalse : post_to_teams (.ok s) = false := by
        simp only [post_to_teams, raise_for_status]
        by_cases h1 : 400 ≤ s ∧ s < 500
        · rw [if_pos h1]
        · rw [if_neg h1, if_pos (by omega : 500 ≤ s ∧ s < 600)]
      simp [hfalse, h]
    · have htrue : post_to_teams (.ok s) = true := by
        simp only [post_to_teams, raise_for_status]
        rw [if_neg (by omega : ¬ (400 ≤ s ∧ s < 500)),
          if_neg (by omega : ¬ (500 ≤ s ∧ s < 600))]
      simp [htrue, h]
  exact ⟨fun e => rfl, hiff,
    fun s h2 h3 => (hiff s).mpr (by omega)⟩

/-- C8 witness: a 200 response yields true. -/
theorem c8_witness : post_to_teams (.ok 200) = true :=
  c8_post_single_attempt_boolean.2.2 200 (by decide) (by decide)

/-- C9: for every non-empty track list the card body is the header followed
by the optional cover blocks and one container whose items are exactly one
row per track in track-list order, ranked 1-based and contiguously
(rank = position + 1), with the separator block interspersed between
consecutive rows and not after the last. -/
theorem c9_card_mirrors_track_order (username : String)
    (tracks : List TrackInfo) (h : tracks ≠ []) :
    ∃ pre : List BodyBlock,
      (format_tracks_for_teams username tracks).body
        = BodyBlock.headerBlock ("Recently Played " ++ toString tracks.length
            ++ " Tracks for " ++ username)
          :: pre
          ++ [BodyBlock.tracksContainer (List.intersperse
              ContainerItem.separatorRow
              (((List.range tracks.length).zip tracks).map
                (fun p => ContainerItem.trackRow (p.1 + 1) p.2.name p.2.artist
                  p.2.album (select_action p.2))))] := by
  cases tracks with
  | nil => exact absurd rfl h
  | cons t rest =>
    refine ⟨if pyFalsyOptStr t.album_cover_url then []
      else
        [BodyBlock.coverImageBlock (t.album_cover_url.getD "")
            ("Album cover for " ++ t.album),
          BodyBlock.albumCaptionBlock ("Album: " ++ t.album)], ?_⟩
    have hloop := track_items_loop_eq_intersperse (t :: rest) 1
      (t :: rest).length (by simp [Nat.add_comm])
    have hzip := ranked_rows_eq_zip (t :: rest) 1
    have hconv : (((List.range (t :: rest).length).zip (t :: rest)).map
          (fun p => ContainerItem.trackRow (1 + p.1) p.2.name p.2.artist
            p.2.album (select_action p.2)))
        = (((List.range (t :: rest).length).zip (t :: rest)).map
          (fun p => ContainerItem.trackRow (p.1 + 1) p.2.name p.2.artist
            p.2.album (select_action p.2))) :=
      List.map_congr_left (fun p _ => by rw [Nat.add_comm])
    simp only [format_tracks_for_teams, hloop, hzip, hconv]

/-- C9 witness: the theorem instantiated on a concrete two-track list. -/
theorem c9_witness :
    ([track_info_of (mkItem "A"), track_info_of (mkItem "B")]
        ≠ ([] : List TrackInfo)) ∧
      ∃ pre : List BodyBlock,
        (format_tracks_for_teams "alice"
            [track_info_of (mkItem "A"), track_info_of (mkItem "B")]).body
          = BodyBlock.headerBlock ("Recently Played "
              ++ toString ([track_info_of (mkItem "A"),
                  track_info_of (mkItem "B")] : List TrackInfo).length
              ++ " Tracks for " ++ "alice")
            :: pre
            ++ [BodyBlock.tracksContainer (List.intersperse
                ContainerItem.separatorRow
                (((List.range ([track_info_of (mkItem "A"),
                      track_info_of (mkItem "B")] : List TrackInfo).length).zip
                    [track_info_of (mkItem "A"), track_info_of (mkItem "B")]).map
                  (fun p => ContainerItem.trackRow (p.1 + 1) p.2.name p.2.artist
                    p.2.album (select_action p.2))))] :=
  ⟨by decide, c9_card_mirrors_track_order "alice"
    [track_info_of (mkItem "A"), track_info_of (mkItem "B")] (by decide)⟩

/-- C10: every iteration of the batch loop increments exactly one of the two
counters, so after the loop successful + failed equals the number of
processed records, and the reported total is exactly the length of the
loaded record list. -/
theorem c10_counters_partition :
    (∀ (num : Int) (runs : List (UserDict × UserBehavior)),
        (main_loop num runs).1 + (main_loop num runs).2.1 = runs.length ∧
          (main_loop num runs).2.2.length = runs.length) ∧
    (∀ (users : List UserDict) (num : Int) (behavior : Nat → UserBehavior),
        users.all requiredKeysPresent = true →
        ∃ s f tr, mainRun (.ok users) num behavior
            = .completed s f users.length tr ∧ s + f = users.length ∧
            tr.length = users.length) := by
  refine ⟨fun num runs => ⟨main_loop_counts num runs,
    main_loop_trace_length num runs⟩, ?_⟩
  intro users num behavior hall
  have hlen : (users.enum.map
      (fun p => (p.2, behavior p.1))).length = users.length := by
    simp
  refine ⟨_, _, _, mainRun_ok users num behavior hall, ?_, ?_⟩
  · rw [main_loop_counts, hlen]
  · rw [main_loop_trace_length, hlen]

/-- C10 witness: a concrete one-record run reports total 1 with
successful + failed = 1. -/
theorem c10_witness :
    ([mkUser "u1" "t1"].all requiredKeysPresent = true) ∧
      ∃ s f tr, mainRun (.ok [mkUser "u1" "t1"]) 5 (fun _ => goodBehavior)
          = .completed s f [mkUser "u1" "t1"].length tr ∧
          s + f = [mkUser "u1" "t1"].length ∧
          tr.length = [mkUser "u1" "t1"].length :=
  ⟨by decide, c10_counters_partition.2 [mkUser "u1" "t1"] 5
    (fun _ => goodBehavior) (by decide)⟩

end Spoteamfy
